import Mathlib

/-!
Verification of the LinkedIn Auto-Networker backend.

A shallow embedding of `src/backend/ai_generator.py` (message generation:
classification, prompt building, fallback template rendering) and of
`src/backend/app.py` (profile store, connection recording, sliding-window
rate limiter), with theorems settling the behavioural claims about them.

Modelling conventions:
* a Python dict with string keys and string values is a `List (String × String)`
  read through `dictGet` (first match wins; inserts keep keys unique);
* `random.choice(pool)` is modelled by an explicit draw parameter
  `choice : Nat`, the element picked being `pool[choice % len(pool)]`;
* a value of `Option α` models a Python computation that may raise
  (`none` = exception), and `PyResult α` distinguishes a function that
  returns a value from one that lets an exception escape;
* timestamps (`time.time()`) are modelled as integers; only their ordering
  and subtraction by the literal 3600 matter to the code.
-/

/-- Python-dict lookup on an association list: first binding wins. -/
def dictGet {α : Type} : List (String × α) → String → Option α
  | [], _ => none
  | (k', v) :: rest, k => if k' = k then some v else dictGet rest k

/-- Python-dict assignment `d[k] = v`: overwrite in place, else append. -/
def dictInsert {α : Type} : List (String × α) → String → α → List (String × α)
  | [], k, v => [(k, v)]
  | (k', v') :: rest, k, v =>
    if k' = k then (k', v) :: rest else (k', v') :: dictInsert rest k v

/-- A profile record: a loosely structured mapping of string keys to
string values, as submitted by the client. -/
def ProfileRecord : Type := List (String × String)

/-- `profile_data.get(k, default)`. -/
def pget (p : ProfileRecord) (k dflt : String) : String :=
  match dictGet p k with
  | some v => v
  | none => dflt

/-- `k in profile_data`. -/
def hasKey (p : ProfileRecord) (k : String) : Bool :=
  (dictGet p k).isSome

/-- Substring occurrence on character lists (Python `pat in s`). -/
def subOccurs (pat : List Char) : List Char → Bool
  | [] => pat.isPrefixOf []
  | c :: rest => pat.isPrefixOf (c :: rest) || subOccurs pat rest

/-- Python `pat in s` on strings. -/
def containsSub (s pat : String) : Bool :=
  subOccurs pat.data s.data

/-- Python `s.lower()` (ASCII, which is all the code relies on). -/
def lowerStr (s : String) : String :=
  String.mk (s.data.map Char.toLower)

/-- The `RECRUITER_FALLBACK` template pool (ai_generator.py lines 14-19). -/
def RECRUITER_FALLBACK : List String :=
  ["I\x27m currently exploring internship opportunities in {industry} and would appreciate connecting with someone from {company}\x27s talent team.",
   "As a {your_role} passionate about {industry}, I\x27d love to connect with {company}\x27s recruitment team to stay updated on future opportunities.",
   "I\x27m impressed by {company}\x27s work in {industry} and would welcome the chance to connect with your recruitment team.",
   "Would love to stay connected with {company}\x27s talent acquisition team as I explore internship opportunities in {industry}."]

/-- The `ALUMNI_FALLBACK` template pool (ai_generator.py lines 21-26). -/
def ALUMNI_FALLBACK : List String :=
  ["As a fellow {school} graduate currently exploring {industry} opportunities, I\x27d love to connect and hear about your journey from {school} to {current_role} at {company}.",
   "I noticed we both attended {school} - would you be open to sharing how your experience there helped shape your path to {current_role} at {company}?",
   "As a current {school} student interested in {industry}, I\x27d appreciate connecting with alumni like yourself to learn about your career journey.",
   "Your path from {school} to {current_role} at {company} is inspiring! Would you be open to connecting and sharing some career insights?"]

/-- One step of Python `str.format(**vars)`: scan the template; on `\x7b`
read the field name up to `\x7d` and substitute its value (`none`, an
exception, when the name is unbound or the brace is unmatched); other
characters pass through.  The fuel argument bounds the recursion and is
instantiated with the template length. -/
def fmtAux : Nat → List Char → List (String × String) → Option (List Char)
  | _, [], _ => some []
  | 0, _ :: _, _ => none
  | n + 1, c :: rest, vars =>
    if c = '\x7b' then
      match rest.dropWhile (fun d => d != '\x7d') with
      | [] => none
      | _ :: rest3 =>
        match dictGet vars (String.mk (rest.takeWhile (fun d => d != '\x7d'))) with
        | none => none
        | some v => (fmtAux n rest3 vars).map (fun out => v.data ++ out)
    else (fmtAux n rest vars).map (fun out => c :: out)

/-- `template.format(**vars)`; `none` models the call raising. -/
def fmt (t : String) (vars : List (String × String)) : Option String :=
  (fmtAux t.data.length t.data vars).map String.mk

/-- Membership test on a key list (kept `=`-based to match `dictGet`). -/
def keyElem : List String → String → Bool
  | [], _ => false
  | k' :: rest, k => if k' = k then true else keyElem rest k

/-- Success predicate of `fmtAux`: it depends only on the bound key names,
never on the values, so it can be decided per template. -/
def fmtOk : Nat → List Char → List String → Bool
  | _, [], _ => true
  | 0, _ :: _, _ => false
  | n + 1, c :: rest, keys =>
    if c = '\x7b' then
      match rest.dropWhile (fun d => d != '\x7d') with
      | [] => false
      | _ :: rest3 =>
        keyElem keys (String.mk (rest.takeWhile (fun d => d != '\x7d'))) &&
          fmtOk n rest3 keys
    else fmtOk n rest keys

/-- Key names of a variable binding list. -/
def varKeys (vars : List (String × String)) : List String :=
  vars.map Prod.fst

/-- The `template_vars` dict of `get_fallback_message`
(ai_generator.py lines 83-91). -/
def templateVars (p : ProfileRecord) : List (String × String) :=
  [("name", pget p "name" "there"),
   ("title", pget p "title" "professional"),
   ("company", pget p "company" "your company"),
   ("school", pget p "school" "our shared alma mater"),
   ("industry", pget p "industry" "this field"),
   ("your_role", pget p "your_role" "aspiring professional"),
   ("current_role", pget p "title" "current position")]

/-- `is_recruiter` of `get_fallback_message` (line 79):
`'recruit' in profile_data.get('title', '').lower()`. -/
def fallback_is_recruiter (p : ProfileRecord) : Bool :=
  containsSub (lowerStr (pget p "title" "")) "recruit"

/-- `is_alumni` of `get_fallback_message` (line 80): `'school' in profile_data`. -/
def fallback_is_alumni (p : ProfileRecord) : Bool :=
  hasKey p "school"

/-- `random.choice(l)` under an explicit draw `c`. -/
def randomChoice (l : List String) (c : Nat) : String :=
  l.getD (c % l.length) ""

/-- The template picked by `get_fallback_message` (lines 93-98). -/
def chooseTemplate (p : ProfileRecord) (choice : Nat) : String :=
  if fallback_is_recruiter p then randomChoice RECRUITER_FALLBACK choice
  else if fallback_is_alumni p then randomChoice ALUMNI_FALLBACK choice
  else randomChoice (RECRUITER_FALLBACK ++ ALUMNI_FALLBACK) choice

/-- `get_fallback_message` (ai_generator.py lines 77-100); `none` models the
call raising. -/
def get_fallback_message (p : ProfileRecord) (choice : Nat) : Option String :=
  fmt (chooseTemplate p choice) (templateVars p)

/-- The pool `get_fallback_message` draws from. -/
def fallbackPool (p : ProfileRecord) : List String :=
  if fallback_is_recruiter p then RECRUITER_FALLBACK
  else if fallback_is_alumni p then ALUMNI_FALLBACK
  else RECRUITER_FALLBACK ++ ALUMNI_FALLBACK

/-- Audience category derived from a profile. -/
inductive AudienceCategory where
  | Recruiter
  | Alumni
  | Generic
deriving DecidableEq

/-- The local variables extracted at the top of `generate_message`'s try
block (ai_generator.py lines 38-43).  Note `title` is lower-cased at
extraction and `school` defaults to "our alma mater" here. -/
structure PromptVars where
  name : String
  title : String
  company : String
  school : String
  industry : String
  your_role : String

/-- Extraction of `PromptVars` from the profile (lines 38-43). -/
def promptVars (p : ProfileRecord) : PromptVars :=
  { name := pget p "name" "there"
    title := lowerStr (pget p "title" "professional")
    company := pget p "company" "your company"
    school := pget p "school" "our alma mater"
    industry := pget p "industry" "this field"
    your_role := pget p "your_role" "aspiring professional" }

/-- `is_recruiter` of `generate_message` (line 46):
`'recruit' in title or 'talent' in title` on the lower-cased title. -/
def gen_is_recruiter (p : ProfileRecord) : Bool :=
  containsSub (promptVars p).title "recruit" ||
    containsSub (promptVars p).title "talent"

/-- `is_alumni` of `generate_message` (line 47): `'school' in profile_data`. -/
def gen_is_alumni (p : ProfileRecord) : Bool :=
  hasKey p "school"

/-- The classification implicit in `generate_message`'s
`if is_recruiter ... elif is_alumni ... else` chain (lines 60-69). -/
def classifyPrompt (p : ProfileRecord) : AudienceCategory :=
  if gen_is_recruiter p then AudienceCategory.Recruiter
  else if gen_is_alumni p then AudienceCategory.Alumni
  else AudienceCategory.Generic

/-- The shared prompt preamble (lines 50-56). -/
def promptBase (p : ProfileRecord) : String :=
  "Create a LinkedIn connection message for " ++ (promptVars p).name ++
  " with these rules:\n        - Max 2 sentences\n        - Professional but approachable tone\n        - No emojis or slang\n        - Skip greetings/signatures\n        \n        Target Profile: "

/-- The recruiter goal clause (lines 59-61). -/
def recruiterGoal (p : ProfileRecord) : String :=
  "Recruiter at " ++ (promptVars p).company ++ " in " ++ (promptVars p).industry ++
  ". \n            Goal: Express interest in internship opportunities, highlight relevant skills (" ++
  (promptVars p).your_role ++ "), \n            and request to stay connected."

/-- The alumni goal clause (lines 63-65). -/
def alumniGoal (p : ProfileRecord) : String :=
  "Alumni from " ++ (promptVars p).school ++ " now working as " ++ (promptVars p).title ++
  " at " ++ (promptVars p).company ++
  ".\n            Goal: Establish common ground, express interest in their career journey, \n            and request brief insights about transitioning from school to their role."

/-- The generic goal clause (lines 67-69). -/
def genericGoal (p : ProfileRecord) : String :=
  "Generic professional (" ++ (promptVars p).title ++ " at " ++ (promptVars p).company ++
  ").\n            Goal: Create connection based on shared industry interests (" ++
  (promptVars p).industry ++ ") \n            and request knowledge sharing."

/-- The full prompt built inside `generate_message`'s try block
(lines 50-69). -/
def buildPrompt (p : ProfileRecord) : String :=
  match classifyPrompt p with
  | AudienceCategory.Recruiter => promptBase p ++ recruiterGoal p
  | AudienceCategory.Alumni => promptBase p ++ alumniGoal p
  | AudienceCategory.Generic => promptBase p ++ genericGoal p

/-- Outcome of a Python call: a returned value, or an uncaught exception. -/
inductive PyResult (α : Type) where
  | ret (v : α)
  | exn
deriving DecidableEq

/-- Python truthiness test `not DEEPSEEK_API_KEY` (line 32): the key is
unset (`os.getenv` gave `None`) or the empty string. -/
def keyMissing : Option String → Bool
  | none => true
  | some s => s = ""

/-- The try suite of `generate_message` with the key configured
(lines 37-72): it extracts the variables and builds the prompt; every
operation in it is total on string-valued records, and — the API invocation
having been reduced to a comment in the source — the suite ends without a
`return`. -/
def tryBody (p : ProfileRecord) : PyResult String :=
  PyResult.ret (buildPrompt p)

/-- The `try ... except` frame of `generate_message` (lines 37-75) around a
given body outcome: a completed body falls off the end of the function
(Python returns `None`); a raised exception is answered with
`get_fallback_message`, whose own failure would propagate. -/
def generate_message_keyed (p : ProfileRecord) (choice : Nat)
    (body : PyResult String) : PyResult (Option String) :=
  match body with
  | PyResult.ret _ => PyResult.ret none
  | PyResult.exn =>
    match get_fallback_message p choice with
    | some s => PyResult.ret (some s)
    | none => PyResult.exn

/-- `generate_message` (ai_generator.py lines 28-75), parameterised by the
`DEEPSEEK_API_KEY` environment value and the random draw of the fallback. -/
def generate_message (apiKey : Option String) (p : ProfileRecord)
    (choice : Nat) : PyResult (Option String) :=
  if keyMissing apiKey then
    match get_fallback_message p choice with
    | some s => PyResult.ret (some s)
    | none => PyResult.exn
  else
    generate_message_keyed p choice (tryBody p)

/-- Modelled from the spec (§4.1): the Profile Classifier as the spec
states it, with a missing title read as the empty string; used to check
claim C2's description of the prompt-path classification against
`classifyPrompt`. -/
def classifySpecModel (p : ProfileRecord) : AudienceCategory :=
  if containsSub (lowerStr (pget p "title" "")) "recruit" ||
     containsSub (lowerStr (pget p "title" "")) "talent" then
    AudienceCategory.Recruiter
  else if hasKey p "school" then AudienceCategory.Alumni
  else AudienceCategory.Generic

/-- A recorded connection (app.py lines 156-160). -/
structure ConnRecord where
  profileUrl : String
  timestamp : Int
  messageUsed : Option String
deriving DecidableEq

/-- The mutable module-level state of app.py (lines 48-53):
`profiles_data`, `connection_history`, `request_timestamps`. -/
structure AppState where
  profiles_data : List (String × ProfileRecord)
  connection_history : List ConnRecord
  request_timestamps : List Int

/-- Body of a `/api/record-connection` request (app.py lines 137-141):
`profileUrl` required, `timestamp` and `messageUsed` optional. -/
structure ConnReq where
  profileUrl : Option String
  timestamp : Option Int
  messageUsed : Option String

/-- `check_rate_limit` (app.py lines 55-67): prune timestamps older than an
hour, then report whether the kept count has reached the cap.  The pruned
list is written back to the module state. -/
def check_rate_limit (maxReq : Nat) (now : Int) (s : AppState) :
    Bool × AppState :=
  let kept := s.request_timestamps.filter (fun ts => decide (now - 3600 < ts))
  (decide (kept.length ≥ maxReq), { s with request_timestamps := kept })

/-- `update_rate_limit` (app.py lines 69-74): append the current time. -/
def update_rate_limit (now : Int) (s : AppState) : AppState :=
  { s with request_timestamps := s.request_timestamps ++ [now] }

/-- The status/timestamp update applied to a stored profile on connection
(app.py lines 164-166); the numeric timestamp is stored in decimal form in
this string-valued model. -/
def markConnected (prof : ProfileRecord) (ts : Int) : ProfileRecord :=
  dictInsert (dictInsert prof "status" "connected") "connectionTimestamp"
    (toString ts)

/-- In-place value update of a store entry under a key. -/
def storeUpdate (d : List (String × ProfileRecord)) (k : String)
    (f : ProfileRecord → ProfileRecord) : List (String × ProfileRecord) :=
  d.map (fun kv => if kv.1 = k then (kv.1, f kv.2) else kv)

/-- Responses of `/api/record-connection`. -/
inductive ConnResp where
  | noUrl
  | rateLimited (maxReq : Nat)
  | success (connections_count : Nat)
deriving DecidableEq

/-- `record_connection` (app.py lines 132-175). -/
def record_connection (maxReq : Nat) (now : Int) (req : ConnReq)
    (s : AppState) : ConnResp × AppState :=
  match req.profileUrl with
  | none => (ConnResp.noUrl, s)
  | some url =>
    let c := check_rate_limit maxReq now s
    if c.1 then (ConnResp.rateLimited maxReq, c.2)
    else
      let s2 := update_rate_limit now c.2
      let ts := req.timestamp.getD now
      let rcd : ConnRecord :=
        { profileUrl := url, timestamp := ts, messageUsed := req.messageUsed }
      let s3 := { s2 with connection_history := s2.connection_history ++ [rcd] }
      let s4 :=
        if (dictGet s3.profiles_data url).isSome then
          { s3 with profiles_data :=
              storeUpdate s3.profiles_data url (fun prof => markConnected prof ts) }
        else s3
      (ConnResp.success s4.connection_history.length, s4)

/-- Responses of `/api/collect-profiles`. -/
inductive CollectResp where
  | noProfiles
  | success (profiles_count : Nat) (message : String)
deriving DecidableEq

/-- `collect_profiles` (app.py lines 95-116): store each submitted profile
that carries a `profileUrl`, keyed by that URL; answer with the total store
size and a message counting all submitted profiles. -/
def collect_profiles (body : Option (List ProfileRecord)) (s : AppState) :
    CollectResp × AppState :=
  match body with
  | none => (CollectResp.noProfiles, s)
  | some ps =>
    let store := ps.foldl (fun d prof =>
      match dictGet prof "profileUrl" with
      | some url => dictInsert d url prof
      | none => d) s.profiles_data
    let s2 := { s with profiles_data := store }
    (CollectResp.success s2.profiles_data.length
      ("Stored " ++ toString ps.length ++ " profiles"), s2)

/-- The last profile of a submission list carrying the given URL. -/
def lastWith (url : String) : List ProfileRecord → Option ProfileRecord
  | [] => none
  | q :: rest =>
    match lastWith url rest with
    | some r => some r
    | none => if dictGet q "profileUrl" = some url then some q else none

/-- Number of timestamps lying strictly within the hour before `now`. -/
def inWindow (now : Int) (l : List Int) : Nat :=
  (l.filter (fun ts => decide (now - 3600 < ts))).length

theorem pget_none {p : ProfileRecord} {k : String} (d : String)
    (h : dictGet p k = none) : pget p k d = d := by
  unfold pget
  rw [h]

theorem pget_some {p : ProfileRecord} {k v : String} (d : String)
    (h : dictGet p k = some v) : pget p k d = v := by
  unfold pget
  rw [h]

theorem dictGet_insert {α : Type} (d : List (String × α)) (k k' : String)
    (v : α) :
    dictGet (dictInsert d k v) k' = if k = k' then some v else dictGet d k' := by
  induction d with
  | nil =>
    by_cases h : k = k' <;> simp [dictInsert, dictGet, h]
  | cons kv rest ih =>
    obtain ⟨a, b⟩ := kv
    by_cases hak : a = k
    · subst hak
      by_cases h : a = k' <;> simp [dictInsert, dictGet, h]
    · by_cases h : a = k'
      · subst h
        have : ¬ k = a := fun hh => hak hh.symm
        simp [dictInsert, dictGet, hak, this]
      · simp [dictInsert, dictGet, hak, h, ih]

theorem keyElem_dictGet (vars : List (String × String)) (k : String) :
    (dictGet vars k).isSome = keyElem (varKeys vars) k := by
  induction vars with
  | nil => rfl
  | cons kv rest ih =>
    obtain ⟨k', v⟩ := kv
    by_cases h : k' = k <;> simp [dictGet, varKeys, keyElem, h, ih]

theorem fmtAux_isSome (n : Nat) :
    ∀ (cs : List Char) (vars : List (String × String)),
      (fmtAux n cs vars).isSome = fmtOk n cs (varKeys vars) := by
  induction n with
  | zero =>
    intro cs vars
    cases cs <;> rfl
  | succ n ih =>
    intro cs vars
    cases cs with
    | nil => rfl
    | cons c rest =>
      simp only [fmtAux, fmtOk]
      by_cases hc : c = '\x7b'
      · simp only [if_pos hc]
        cases hdrop : rest.dropWhile (fun d => d != '\x7d') with
        | nil => rfl
        | cons x rest3 =>
          rw [← keyElem_dictGet]
          cases hv : dictGet vars
              (String.mk (rest.takeWhile (fun d => d != '\x7d'))) with
          | none => rfl
          | some v =>
            have h3 := ih rest3 vars
            cases hfa : fmtAux n rest3 vars with
            | none =>
              rw [hfa] at h3
              simp [hfa, ← h3]
            | some out =>
              rw [hfa] at h3
              simp [hfa, ← h3]
      · simp only [if_neg hc]
        have h2 := ih rest vars
        cases hfa : fmtAux n rest vars with
        | none =>
          rw [hfa] at h2
          simp [← h2]
        | some out =>
          rw [hfa] at h2
          simp [← h2]

theorem fmt_isSome (t : String) (vars : List (String × String)) :
    (fmt t vars).isSome = fmtOk t.data.length t.data (varKeys vars) := by
  unfold fmt
  rw [← fmtAux_isSome]
  cases fmtAux t.data.length t.data vars <;> rfl

theorem getD_mem : ∀ (l : List String) (n : Nat), n < l.length →
    l.getD n "" ∈ l := by
  intro l
  induction l with
  | nil => intro n h; exact absurd h (by simp)
  | cons a t ih =>
    intro n h
    cases n with
    | zero => exact List.mem_cons_self a t
    | succ m =>
      exact List.mem_cons_of_mem a (ih m (Nat.lt_of_succ_lt_succ h))

theorem mem_getD (l : List String) (t : String) (h : t ∈ l) :
    ∃ n, n < l.length ∧ l.getD n "" = t := by
  induction l with
  | nil => cases h
  | cons a rest ih =>
    cases h with
    | head => exact ⟨0, by simp, rfl⟩
    | tail _ hmem =>
      obtain ⟨n, hn, hg⟩ := ih hmem
      exact ⟨n + 1, Nat.succ_lt_succ hn, hg⟩

theorem chooseTemplate_pool (p : ProfileRecord) (c : Nat) :
    chooseTemplate p c = randomChoice (fallbackPool p) c := by
  unfold chooseTemplate fallbackPool
  by_cases h1 : fallback_is_recruiter p <;>
    by_cases h2 : fallback_is_alumni p <;> simp [h1, h2]

theorem fallbackPool_pos (p : ProfileRecord) : 0 < (fallbackPool p).length := by
  unfold fallbackPool
  by_cases h1 : fallback_is_recruiter p <;>
    by_cases h2 : fallback_is_alumni p <;>
      simp [h1, h2, RECRUITER_FALLBACK, ALUMNI_FALLBACK]

theorem fallbackPool_sub (p : ProfileRecord) (t : String)
    (h : t ∈ fallbackPool p) : t ∈ RECRUITER_FALLBACK ++ ALUMNI_FALLBACK := by
  unfold fallbackPool at h
  split at h
  · exact List.mem_append_left _ h
  · split at h
    · exact List.mem_append_right _ h
    · exact h

/-- The seven variable names bound by `template_vars`. -/
def fallbackKeys : List String :=
  ["name", "title", "company", "school", "industry", "your_role",
   "current_role"]

set_option maxRecDepth 40000 in
theorem poolOk : ∀ t ∈ RECRUITER_FALLBACK ++ ALUMNI_FALLBACK,
    fmtOk t.data.length t.data fallbackKeys = true := by decide

theorem fallback_isSome (p : ProfileRecord) (choice : Nat) :
    (get_fallback_message p choice).isSome = true := by
  have hmem : chooseTemplate p choice ∈ RECRUITER_FALLBACK ++ ALUMNI_FALLBACK := by
    apply fallbackPool_sub
    rw [chooseTemplate_pool]
    unfold randomChoice
    exact getD_mem _ _ (Nat.mod_lt _ (fallbackPool_pos p))
  have hok := poolOk _ hmem
  show (fmt (chooseTemplate p choice) (templateVars p)).isSome = true
  rw [fmt_isSome]
  rw [show varKeys (templateVars p) = fallbackKeys from rfl]
  exact hok

/-- C1: the claim says `generate_message` always returns a non-empty string,
including when `DEEPSEEK_API_KEY` is configured.  The code contradicts it:
with a key configured the try block builds the prompt but — the provider
call having been left as a comment — ends without a `return`, so the
function returns Python `None`.  This theorem evaluates the code at such a
failing input. -/
theorem c1_keyed_returns_none :
    generate_message (some "test-key") ([] : ProfileRecord) 0 =
      PyResult.ret none := rfl

/-- C2: in the prompt-building path, classification lower-cases the title
(a missing title becoming the fixed default string "professional"), maps a
title containing "recruit" or "talent" to Recruiter, else a record with a
school key to Alumni, else Generic, with the recruiter test strictly first:
`classifyPrompt` coincides with the classifier as the spec words it
(`classifySpecModel`, missing title read as the empty string). -/
theorem c2_classification (p : ProfileRecord) :
    classifyPrompt p = classifySpecModel p := by
  unfold classifyPrompt classifySpecModel gen_is_recruiter gen_is_alumni
  rw [show (promptVars p).title = lowerStr (pget p "title" "professional")
      from rfl]
  cases h : dictGet p "title" with
  | some t =>
    rw [pget_some _ h, pget_some _ h]
  | none =>
    rw [pget_none _ h, pget_none _ h,
        show containsSub (lowerStr "professional") "recruit" = false from rfl,
        show containsSub (lowerStr "professional") "talent" = false from rfl,
        show containsSub (lowerStr "") "recruit" = false from rfl,
        show containsSub (lowerStr "") "talent" = false from rfl]

/-- C3: the fallback renderer's recruiter test checks only "recruit", so a
profile whose lower-cased title contains "talent" but not "recruit" and has
no school key is rendered from the union pool (the generic branch), not
from the recruiter pool. -/
theorem c3_fallback_talent_generic (p : ProfileRecord) (choice : Nat)
    (ht : containsSub (lowerStr (pget p "title" "")) "talent" = true)
    (hr : fallback_is_recruiter p = false)
    (hs : fallback_is_alumni p = false) :
    get_fallback_message p choice =
      fmt (randomChoice (RECRUITER_FALLBACK ++ ALUMNI_FALLBACK) choice)
        (templateVars p) := by
  unfold get_fallback_message chooseTemplate
  rw [hr, hs]
  simp

set_option maxRecDepth 40000 in
/-- Witness for C3 at the profile with title "Talent Partner". -/
theorem c3_witness :
    containsSub (lowerStr (pget [("title", "Talent Partner")] "title" ""))
        "talent" = true ∧
    fallback_is_recruiter [("title", "Talent Partner")] = false ∧
    fallback_is_alumni [("title", "Talent Partner")] = false ∧
    get_fallback_message [("title", "Talent Partner")] 0 =
      fmt (randomChoice (RECRUITER_FALLBACK ++ ALUMNI_FALLBACK) 0)
        (templateVars [("title", "Talent Partner")]) :=
  ⟨by decide, by decide, by decide,
   c3_fallback_talent_generic [("title", "Talent Partner")] 0
     (by decide) (by decide) (by decide)⟩

set_option maxRecDepth 40000 in
/-- C4: `get_fallback_message` draws from the Recruiter pool (4 templates)
when recruiter-classified, the Alumni pool (4 templates) when
alumni-classified, and the 8-template union when generic; every output is
the rendering of a pool template, every pool template is reachable by some
draw, and for a generic profile renderings of both pools occur. -/
theorem c4_pool_selection (p : ProfileRecord) :
    RECRUITER_FALLBACK.length = 4 ∧ ALUMNI_FALLBACK.length = 4 ∧
    (∀ choice, ∃ t, t ∈ fallbackPool p ∧
        get_fallback_message p choice = fmt t (templateVars p)) ∧
    (∀ t, t ∈ fallbackPool p →
        ∃ choice, get_fallback_message p choice = fmt t (templateVars p)) ∧
    (fallback_is_recruiter p = false → fallback_is_alumni p = false →
       (fallbackPool p).length = 8 ∧
       (∃ c t, t ∈ RECRUITER_FALLBACK ∧
           get_fallback_message p c = fmt t (templateVars p)) ∧
       (∃ c t, t ∈ ALUMNI_FALLBACK ∧
           get_fallback_message p c = fmt t (templateVars p))) := by
  refine ⟨rfl, rfl, ?_, ?_, ?_⟩
  · intro choice
    refine ⟨randomChoice (fallbackPool p) choice, ?_, ?_⟩
    · unfold randomChoice
      exact getD_mem _ _ (Nat.mod_lt _ (fallbackPool_pos p))
    · unfold get_fallback_message
      rw [chooseTemplate_pool]
  · intro t ht
    obtain ⟨n, hn, hg⟩ := mem_getD _ t ht
    refine ⟨n, ?_⟩
    unfold get_fallback_message
    rw [chooseTemplate_pool]
    unfold randomChoice
    rw [Nat.mod_eq_of_lt hn, hg]
  · intro h1 h2
    have hpool : fallbackPool p = RECRUITER_FALLBACK ++ ALUMNI_FALLBACK := by
      unfold fallbackPool
      rw [h1, h2]
      simp
    refine ⟨by rw [hpool]; rfl, ?_, ?_⟩
    · refine ⟨0, randomChoice (RECRUITER_FALLBACK ++ ALUMNI_FALLBACK) 0,
        by decide, ?_⟩
      unfold get_fallback_message
      rw [chooseTemplate_pool, hpool]
    · refine ⟨4, randomChoice (RECRUITER_FALLBACK ++ ALUMNI_FALLBACK) 4,
        by decide, ?_⟩
      unfold get_fallback_message
      rw [chooseTemplate_pool, hpool]

set_option maxRecDepth 40000 in
/-- Witness for C4: the empty profile is generic in the fallback renderer,
and both pools are reached. -/
theorem c4_witness :
    fallback_is_recruiter ([] : ProfileRecord) = false ∧
    fallback_is_alumni ([] : ProfileRecord) = false ∧
    ((fallbackPool ([] : ProfileRecord)).length = 8 ∧
     (∃ c t, t ∈ RECRUITER_FALLBACK ∧
         get_fallback_message ([] : ProfileRecord) c =
           fmt t (templateVars ([] : ProfileRecord))) ∧
     (∃ c t, t ∈ ALUMNI_FALLBACK ∧
         get_fallback_message ([] : ProfileRecord) c =
           fmt t (templateVars ([] : ProfileRecord)))) :=
  ⟨rfl, rfl, (c4_pool_selection ([] : ProfileRecord)).2.2.2.2 rfl rfl⟩

set_option maxRecDepth 100000 in
/-- C5: the fallback renderer binds all seven variables with their defaults
before substitution (name "there", title "professional", company
"your company", school "our shared alma mater", industry "this field",
your_role "aspiring professional", current_role from title with default
"current position"); substitution never raises, and on the empty profile
the output has no brace left and contains one of the default values. -/
theorem c5_defaults_and_totality (p : ProfileRecord) (choice : Nat) :
    templateVars p =
      [("name", pget p "name" "there"),
       ("title", pget p "title" "professional"),
       ("company", pget p "company" "your company"),
       ("school", pget p "school" "our shared alma mater"),
       ("industry", pget p "industry" "this field"),
       ("your_role", pget p "your_role" "aspiring professional"),
       ("current_role", pget p "title" "current position")] ∧
    (get_fallback_message p choice).isSome = true ∧
    ∃ s, get_fallback_message ([] : ProfileRecord) choice = some s ∧
      containsSub s "\x7b" = false ∧
      (containsSub s "there" || containsSub s "professional" ||
       containsSub s "your company" || containsSub s "our shared alma mater" ||
       containsSub s "this field" || containsSub s "aspiring professional" ||
       containsSub s "current position") = true := by
  refine ⟨rfl, fallback_isSome p choice, ?_⟩
  have hg : get_fallback_message ([] : ProfileRecord) choice =
      fmt ((RECRUITER_FALLBACK ++ ALUMNI_FALLBACK).getD (choice % 8) "")
        (templateVars ([] : ProfileRecord)) := rfl
  have h8 : choice % 8 = 0 ∨ choice % 8 = 1 ∨ choice % 8 = 2 ∨
      choice % 8 = 3 ∨ choice % 8 = 4 ∨ choice % 8 = 5 ∨ choice % 8 = 6 ∨
      choice % 8 = 7 := by omega
  rcases h8 with h|h|h|h|h|h|h|h <;> rw [hg, h] <;>
    exact ⟨_, rfl, by decide, by decide⟩

/-- C6 counterexample: the claim says a missing school field is substituted
with "our shared alma mater" in the prompt-building path; in the code
(ai_generator.py line 41) the extracted school variable of a profile with
no school key is "our alma mater", a different string. -/
theorem c6_counterexample :
    dictGet ([] : ProfileRecord) "school" = none ∧
    (promptVars ([] : ProfileRecord)).school = "our alma mater" ∧
    (promptVars ([] : ProfileRecord)).school ≠ "our shared alma mater" :=
  ⟨rfl, rfl, by decide⟩

/-- C6 (amended): in the prompt-building path every missing field is
substituted with a fixed neutral default — name "there", title
"professional", company "your company", industry "this field", your_role
"aspiring professional" as in the fallback table, but school
"our alma mater" (without "shared") — so prompt building never fails on
missing fields. -/
theorem c6_prompt_defaults (p : ProfileRecord) :
    (dictGet p "name" = none → (promptVars p).name = "there") ∧
    (dictGet p "title" = none → (promptVars p).title = "professional") ∧
    (dictGet p "company" = none → (promptVars p).company = "your company") ∧
    (dictGet p "school" = none → (promptVars p).school = "our alma mater") ∧
    (dictGet p "industry" = none → (promptVars p).industry = "this field") ∧
    (dictGet p "your_role" = none →
        (promptVars p).your_role = "aspiring professional") := by
  refine ⟨fun h => ?_, fun h => ?_, fun h => ?_, fun h => ?_, fun h => ?_,
    fun h => ?_⟩
  · show pget p "name" "there" = "there"
    rw [pget_none _ h]
  · show lowerStr (pget p "title" "professional") = "professional"
    rw [pget_none _ h]
    decide
  · show pget p "company" "your company" = "your company"
    rw [pget_none _ h]
  · show pget p "school" "our alma mater" = "our alma mater"
    rw [pget_none _ h]
  · show pget p "industry" "this field" = "this field"
    rw [pget_none _ h]
  · show pget p "your_role" "aspiring professional" = "aspiring professional"
    rw [pget_none _ h]

/-- Witness for C6's amended statement at the empty profile. -/
theorem c6_prompt_defaults_witness :
    (promptVars ([] : ProfileRecord)).name = "there" ∧
    (promptVars ([] : ProfileRecord)).title = "professional" ∧
    (promptVars ([] : ProfileRecord)).company = "your company" ∧
    (promptVars ([] : ProfileRecord)).school = "our alma mater" ∧
    (promptVars ([] : ProfileRecord)).industry = "this field" ∧
    (promptVars ([] : ProfileRecord)).your_role = "aspiring professional" :=
  ⟨(c6_prompt_defaults ([] : ProfileRecord)).1 rfl,
   (c6_prompt_defaults ([] : ProfileRecord)).2.1 rfl,
   (c6_prompt_defaults ([] : ProfileRecord)).2.2.1 rfl,
   (c6_prompt_defaults ([] : ProfileRecord)).2.2.2.1 rfl,
   (c6_prompt_defaults ([] : ProfileRecord)).2.2.2.2.1 rfl,
   (c6_prompt_defaults ([] : ProfileRecord)).2.2.2.2.2 rfl⟩

/-- C7: `generate_message` routes both error kinds to the fallback and never
propagates them — with no credential it answers with
`get_fallback_message(profile)` for the same profile, an exception escaping
the try suite is answered with `get_fallback_message(profile)`, and no
error ever escapes `generate_message`. -/
theorem c7_error_routing (key : Option String) (p : ProfileRecord)
    (choice : Nat) (body : PyResult String) :
    (keyMissing key = true →
       ∃ s, get_fallback_message p choice = some s ∧
            generate_message key p choice = PyResult.ret (some s)) ∧
    (body = PyResult.exn →
       ∃ s, get_fallback_message p choice = some s ∧
            generate_message_keyed p choice body = PyResult.ret (some s)) ∧
    generate_message key p choice ≠ PyResult.exn := by
  obtain ⟨s, hs⟩ := Option.isSome_iff_exists.mp
    (by rw [fallback_isSome p choice])
  refine ⟨?_, ?_, ?_⟩
  · intro hk
    refine ⟨s, hs, ?_⟩
    unfold generate_message
    rw [if_pos hk, hs]
  · intro hb
    subst hb
    refine ⟨s, hs, ?_⟩
    unfold generate_message_keyed
    rw [hs]
  · unfold generate_message
    by_cases hk : keyMissing key = true
    · rw [if_pos hk, hs]
      simp
    · rw [if_neg hk]
      unfold generate_message_keyed tryBody
      simp

/-- Witness for C7 with no credential and an exception-raising body. -/
theorem c7_witness :
    keyMissing none = true ∧
    (∃ s, get_fallback_message ([] : ProfileRecord) 0 = some s ∧
        generate_message none ([] : ProfileRecord) 0 =
          PyResult.ret (some s)) ∧
    (∃ s, get_fallback_message ([] : ProfileRecord) 0 = some s ∧
        generate_message_keyed ([] : ProfileRecord) 0 PyResult.exn =
          PyResult.ret (some s)) :=
  ⟨rfl,
   (c7_error_routing none ([] : ProfileRecord) 0 PyResult.exn).1 rfl,
   (c7_error_routing none ([] : ProfileRecord) 0 PyResult.exn).2.1 rfl⟩

theorem filter_self {α : Type} (q : α → Bool) (l : List α) :
    (l.filter q).filter q = l.filter q := by
  induction l with
  | nil => rfl
  | cons a t ih =>
    by_cases h : q a = true
    · simp [List.filter_cons, h, ih]
    · simp [List.filter_cons, h, ih]

theorem inWindow_filter (now : Int) (l : List Int) :
    inWindow now (l.filter (fun ts => decide (now - 3600 < ts))) =
      inWindow now l := by
  unfold inWindow
  rw [filter_self]

theorem inWindow_push (now : Int) (l : List Int) :
    inWindow now (l.filter (fun ts => decide (now - 3600 < ts)) ++ [now]) =
      inWindow now l + 1 := by
  unfold inWindow
  rw [List.filter_append, filter_self]
  have hq : decide (now - 3600 < now) = true := decide_eq_true (by omega)
  simp [List.filter_cons, hq]

/-- C8: `record_connection` enforces the hourly cap: at or above
`MAX_REQUESTS_PER_HOUR` connections within the past hour the request is
rejected with a rate-limit response and the connection history, the profile
store and the in-window count of recorded connections are unchanged; below
the cap the connection is appended to the history and the in-window count
grows by one. -/
theorem c8_rate_limit_cap (maxReq : Nat) (now : Int) (req : ConnReq)
    (s : AppState) (url : String) (hurl : req.profileUrl = some url) :
    (maxReq ≤ inWindow now s.request_timestamps →
       (record_connection maxReq now req s).1 = ConnResp.rateLimited maxReq ∧
       (record_connection maxReq now req s).2.connection_history =
         s.connection_history ∧
       (record_connection maxReq now req s).2.profiles_data =
         s.profiles_data ∧
       inWindow now (record_connection maxReq now req s).2.request_timestamps =
         inWindow now s.request_timestamps) ∧
    (inWindow now s.request_timestamps < maxReq →
       (record_connection maxReq now req s).2.connection_history =
         s.connection_history ++
           [{ profileUrl := url, timestamp := req.timestamp.getD now,
              messageUsed := req.messageUsed }] ∧
       inWindow now (record_connection maxReq now req s).2.request_timestamps =
         inWindow now s.request_timestamps + 1) := by
  constructor
  · intro hge
    have hc : decide
        ((s.request_timestamps.filter
            (fun ts => decide (now - 3600 < ts))).length ≥ maxReq) = true :=
      decide_eq_true hge
    simp only [record_connection, hurl, check_rate_limit, hc, if_true]
    exact ⟨trivial, trivial, trivial, inWindow_filter now s.request_timestamps⟩
  · intro hlt
    have hc : decide
        ((s.request_timestamps.filter
            (fun ts => decide (now - 3600 < ts))).length ≥ maxReq) = false :=
      decide_eq_false (by exact fun hge => absurd hlt (Nat.not_lt.mpr hge))
    simp only [record_connection, hurl, check_rate_limit, hc,
      Bool.false_eq_true, if_false]
    constructor
    · split <;> rfl
    · have hw : ∀ s4 : AppState,
          s4.request_timestamps =
            s.request_timestamps.filter (fun ts => decide (now - 3600 < ts)) ++
              [now] →
          inWindow now s4.request_timestamps =
            inWindow now s.request_timestamps + 1 := by
        intro s4 h4
        rw [h4]
        exact inWindow_push now s.request_timestamps
      split <;> exact hw _ rfl

/-- Witness for C8: one stale timestamp, below the cap — the connection is
recorded and the in-window count grows by one. -/
theorem c8_witness :
    (⟨some "u", none, none⟩ : ConnReq).profileUrl = some "u" ∧
    inWindow 50000 (⟨[], [], [100]⟩ : AppState).request_timestamps < 20 ∧
    ((record_connection 20 50000 ⟨some "u", none, none⟩
        ⟨[], [], [100]⟩).2.connection_history =
      (⟨[], [], [100]⟩ : AppState).connection_history ++
        [{ profileUrl := "u",
           timestamp := (⟨some "u", none, none⟩ : ConnReq).timestamp.getD 50000,
           messageUsed := none }] ∧
     inWindow 50000 (record_connection 20 50000 ⟨some "u", none, none⟩
        ⟨[], [], [100]⟩).2.request_timestamps =
       inWindow 50000 (⟨[], [], [100]⟩ : AppState).request_timestamps + 1) :=
  ⟨rfl, by decide,
   (c8_rate_limit_cap 20 50000 ⟨some "u", none, none⟩ ⟨[], [], [100]⟩ "u"
      rfl).2 (by decide)⟩

theorem dictGet_foldl_store (ps : List ProfileRecord) :
    ∀ (d : List (String × ProfileRecord)) (url : String),
      dictGet (ps.foldl (fun d prof =>
          match dictGet prof "profileUrl" with
          | some u => dictInsert d u prof
          | none => d) d) url =
        (match lastWith url ps with
         | some prof => some prof
         | none => dictGet d url) := by
  induction ps with
  | nil => intro d url; rfl
  | cons q rest ih =>
    intro d url
    rw [List.foldl_cons, ih]
    cases hlast : lastWith url rest with
    | some r =>
      simp [lastWith, hlast]
    | none =>
      simp only [lastWith, hlast]
      cases hq : dictGet q "profileUrl" with
      | none => simp [hq]
      | some u =>
        simp only [hq, dictGet_insert]
        by_cases hu : u = url
        · subst hu
          simp
        · have h2 : ¬ ((some u : Option String) = some url) := by
            simp [hu]
          simp [hu, h2]

/-- C9: `collect_profiles` stores exactly the submitted profiles that carry
a `profileUrl`, keyed by that URL with later submissions overwriting
earlier ones and falling back to the pre-existing store entry otherwise;
profiles without a `profileUrl` are dropped, while the success message
counts all submitted profiles and `profiles_count` is the total store
size. -/
theorem c9_collect_profiles (ps : List ProfileRecord) (s : AppState) :
    (∀ url, dictGet (collect_profiles (some ps) s).2.profiles_data url =
        (match lastWith url ps with
         | some prof => some prof
         | none => dictGet s.profiles_data url)) ∧
    (collect_profiles (some ps) s).1 =
      CollectResp.success
        (collect_profiles (some ps) s).2.profiles_data.length
        ("Stored " ++ toString ps.length ++ " profiles") := by
  constructor
  · intro url
    exact dictGet_foldl_store ps s.profiles_data url
  · rfl

/-- C10: after `check_rate_limit` every remaining timestamp lies strictly
within the past 3600 seconds of the current time (and, when all recorded
timestamps are in the past, within `(now - 3600, now]`), and the limit
comparison counts exactly the connections recorded during the last hour. -/
theorem c10_sliding_window (maxReq : Nat) (now : Int) (s : AppState) :
    (∀ ts ∈ (check_rate_limit maxReq now s).2.request_timestamps,
        now - 3600 < ts) ∧
    (check_rate_limit maxReq now s).1 =
      decide (maxReq ≤ inWindow now s.request_timestamps) ∧
    ((∀ ts ∈ s.request_timestamps, ts ≤ now) →
       ∀ ts ∈ (check_rate_limit maxReq now s).2.request_timestamps,
         now - 3600 < ts ∧ ts ≤ now) := by
  refine ⟨?_, rfl, ?_⟩
  · intro ts hts
    have hts' : ts ∈ s.request_timestamps.filter
        (fun t => decide (now - 3600 < t)) := hts
    exact of_decide_eq_true (List.mem_filter.mp hts').2
  · intro hall ts hts
    have hts' : ts ∈ s.request_timestamps.filter
        (fun t => decide (now - 3600 < t)) := hts
    have h2 := List.mem_filter.mp hts'
    exact ⟨of_decide_eq_true h2.2, hall ts h2.1⟩

/-- Witness for C10 on a state whose timestamps are all in the past. -/
theorem c10_witness :
    (∀ ts ∈ (⟨[], [], [100, 48000]⟩ : AppState).request_timestamps,
        ts ≤ 50000) ∧
    (∀ ts ∈ (check_rate_limit 20 50000
        (⟨[], [], [100, 48000]⟩ : AppState)).2.request_timestamps,
      (50000 : Int) - 3600 < ts ∧ ts ≤ 50000) :=
  ⟨by decide,
   (c10_sliding_window 20 50000 ⟨[], [], [100, 48000]⟩).2.2 (by decide)⟩
